import Mathlib

/-!
Verification development for the `matrix-encrypted-webhooks` bridge.

The development shallowly embeds the Python sources (`WebhookServer.py`,
`E2EEClient.py`, `main.py`) as executable Lean definitions:

* the JSON value model, the `json.dumps(indent=2, ensure_ascii=...)`
  serializer and the `json.loads` parser used by the webhook handler,
* UTF-8 decoding of the raw request payload (`payload.decode()`),
* the token-table parser `_parse_known_tokens` and the request handler
  `_post_hook` of `WebhookServer`,
* the one-time greeting logic of `E2EEClient._sync_callback`,
* the credential/login lifecycle of `E2EEClient.login`,
* the supervisor behaviour of `main.py`
  (`asyncio.gather(..., return_exceptions=True)` plus the module-level
  `try/except` exit handling).

Stateful and effectful code (HTTP transport, the Matrix client, the file
system) is embedded by explicit state passing: the handler receives the
already-read body bytes and the form-decode result as inputs and returns the
HTTP outcome together with the list of `send_message` calls it issued.
-/

/-! ## JSON value model

Python `dict`/`list`/`str`/`int`/`bool`/`None` values as produced by
`json.loads` and consumed by `json.dumps`.  Numbers are modelled as integers
only: floating point values are outside the embedding (IEEE semantics are not
statable here), so the parser below rejects non-integral numeric literals. -/

inductive JValue where
  | null
  | bool (b : Bool)
  | num (n : Int)
  | str (s : String)
  | arr (xs : List JValue)
  | obj (fs : List (String × JValue))
deriving Repr

/-- The character `LEFT CURLY BRACKET`. -/
def lbrace : Char := Char.ofNat 123

/-- The character `RIGHT CURLY BRACKET`. -/
def rbrace : Char := Char.ofNat 125

/-- Lowercase hexadecimal digit, as used by Python's `\uXXXX` escapes. -/
def hex_digit (n : Nat) : Char :=
  if n < 10 then Char.ofNat (48 + n) else Char.ofNat (87 + n)

/-- Four lowercase hexadecimal digits: the `XXXX` of a `\uXXXX` escape. -/
def hex4 (n : Nat) : String :=
  String.mk [hex_digit (n / 4096 % 16), hex_digit (n / 256 % 16),
             hex_digit (n / 16 % 16), hex_digit (n % 16)]

/-- Escape one character of a JSON string the way CPython's `json` encoder
does: the two-character named escapes, `\uXXXX` for other control characters,
and — when `ensure_ascii` is set — `\uXXXX` (with surrogate pairs above the
BMP) for every character outside `0x20..0x7E`. -/
def py_json_escape_char (ensure_ascii : Bool) (c : Char) : String :=
  if c = '"' then "\\\""
  else if c = '\\' then "\\\\"
  else if c.toNat = 8 then "\\b"
  else if c.toNat = 12 then "\\f"
  else if c = '\n' then "\\n"
  else if c = '\r' then "\\r"
  else if c = '\t' then "\\t"
  else if c.toNat < 32 then "\\u" ++ hex4 c.toNat
  else if ensure_ascii ∧ c.toNat > 126 then
    if c.toNat ≤ 65535 then "\\u" ++ hex4 c.toNat
    else
      "\\u" ++ hex4 (55296 + (c.toNat - 65536) / 1024) ++
      "\\u" ++ hex4 (56320 + (c.toNat - 65536) % 1024)
  else String.mk [c]

/-- Escape every character of a JSON string body. -/
def py_json_escape_chars (ensure_ascii : Bool) : List Char → String
  | [] => ""
  | c :: cs => py_json_escape_char ensure_ascii c ++ py_json_escape_chars ensure_ascii cs

/-- A quoted JSON string literal, as emitted by `json.dumps`. -/
def py_json_quote (ensure_ascii : Bool) (s : String) : String :=
  "\"" ++ py_json_escape_chars ensure_ascii s.data ++ "\""

/-- `2 * lvl` spaces: the indentation produced by `json.dumps(..., indent=2)`
at nesting level `lvl`. -/
def json_indent (lvl : Nat) : String :=
  String.mk (List.replicate (2 * lvl) ' ')

mutual
/-- `json.dumps(v, indent=2, ensure_ascii=ea)` at nesting level `lvl`:
scalars inline; non-empty containers open on their own line, indent each
item by two more spaces, separate items by `",\n"` and use `": "` between a
key and its value. -/
def json_dumps_val (ea : Bool) (lvl : Nat) : JValue → String
  | .null => "null"
  | .bool true => "true"
  | .bool false => "false"
  | .num n => toString n
  | .str s => py_json_quote ea s
  | .arr [] => "[]"
  | .arr (x :: xs) =>
      "[\n" ++ json_indent (lvl + 1) ++ json_dumps_val ea (lvl + 1) x ++
      json_dumps_items ea (lvl + 1) xs ++ "\n" ++ json_indent lvl ++ "]"
  | .obj [] => "\x7b\x7d"
  | .obj ((k, v) :: fs) =>
      "\x7b\n" ++ json_indent (lvl + 1) ++ py_json_quote ea k ++ ": " ++
      json_dumps_val ea (lvl + 1) v ++
      json_dumps_fields ea (lvl + 1) fs ++ "\n" ++ json_indent lvl ++ "\x7d"

/-- The remaining items of a non-empty JSON array, each on its own line. -/
def json_dumps_items (ea : Bool) (lvl : Nat) : List JValue → String
  | [] => ""
  | x :: xs =>
      ",\n" ++ json_indent lvl ++ json_dumps_val ea lvl x ++
      json_dumps_items ea lvl xs

/-- The remaining fields of a non-empty JSON object, each on its own line. -/
def json_dumps_fields (ea : Bool) (lvl : Nat) : List (String × JValue) → String
  | [] => ""
  | (k, v) :: fs =>
      ",\n" ++ json_indent lvl ++ py_json_quote ea k ++ ": " ++
      json_dumps_val ea lvl v ++ json_dumps_fields ea lvl fs
end

/-- Embedding of `json.dumps(data, indent=2, ensure_ascii=ea)`. -/
def json_dumps (ea : Bool) (v : JValue) : String :=
  json_dumps_val ea 0 v

/-! ## JSON parser

Embedding of `json.loads` as invoked by aiohttp's `request.json()`.
Deliberate restrictions, each noted where it applies: numeric literals with a
fraction or exponent, and lone UTF-16 surrogates in `\uXXXX` escapes, are
rejected (`none`) instead of producing floats / surrogate code units, neither
of which is representable in this model.  Recursion over nested values is
driven by a fuel parameter; `json_loads` supplies fuel strictly larger than
the number of parsing steps any input of its length can need, so fuel
exhaustion never decides an answer. -/

/-- JSON insignificant whitespace (RFC 8259: space, tab, LF, CR). -/
def skip_ws : List Char → List Char
  | [] => []
  | c :: cs =>
      if c = ' ' ∨ c = '\t' ∨ c = '\n' ∨ c = '\r' then skip_ws cs else c :: cs

/-- The value of one hexadecimal digit, upper or lower case. -/
def hex_val (c : Char) : Option Nat :=
  if '0' ≤ c ∧ c ≤ '9' then some (c.toNat - 48)
  else if 'a' ≤ c ∧ c ≤ 'f' then some (c.toNat - 87)
  else if 'A' ≤ c ∧ c ≤ 'F' then some (c.toNat - 70)
  else none

/-- The value of the four hex digits of a `\uXXXX` escape. -/
def hex4_val (c1 c2 c3 c4 : Char) : Option Nat :=
  match hex_val c1, hex_val c2, hex_val c3, hex_val c4 with
  | some n1, some n2, some n3, some n4 =>
      some (n1 * 4096 + n2 * 256 + n3 * 16 + n4)
  | _, _, _, _ => none

/-- Parse the body of a JSON string literal (the opening quote already
consumed), returning the decoded characters and the input after the closing
quote.  Handles the named escapes and `\uXXXX` including surrogate pairs;
a lone surrogate is rejected (see the section comment). -/
def parse_json_string_chars : List Char → Option (List Char × List Char)
  | [] => none
  | '"' :: rest => some ([], rest)
  | '\\' :: 'u' :: c1 :: c2 :: c3 :: c4 :: rest =>
      match hex4_val c1 c2 c3 c4 with
      | none => none
      | some n =>
        if n < 55296 ∨ 57343 < n then
          (parse_json_string_chars rest).map (fun p => (Char.ofNat n :: p.1, p.2))
        else if n ≤ 56319 then
          match rest with
          | '\\' :: 'u' :: d1 :: d2 :: d3 :: d4 :: rest2 =>
            match hex4_val d1 d2 d3 d4 with
            | some m =>
              if 56320 ≤ m ∧ m ≤ 57343 then
                (parse_json_string_chars rest2).map
                  (fun p => (Char.ofNat (65536 + (n - 55296) * 1024 + (m - 56320)) :: p.1, p.2))
              else none
            | none => none
          | _ => none
        else none
  | '\\' :: e :: rest =>
      let decoded : Option Char :=
        if e = '"' then some '"'
        else if e = '\\' then some '\\'
        else if e = '/' then some '/'
        else if e = 'b' then some (Char.ofNat 8)
        else if e = 'f' then some (Char.ofNat 12)
        else if e = 'n' then some '\n'
        else if e = 'r' then some '\r'
        else if e = 't' then some '\t'
        else none
      match decoded with
      | some c => (parse_json_string_chars rest).map (fun p => (c :: p.1, p.2))
      | none => none
  | c :: rest =>
      if c.toNat < 32 then none
      else (parse_json_string_chars rest).map (fun p => (c :: p.1, p.2))

/-- The value of one decimal digit. -/
def digit_val (c : Char) : Option Nat :=
  if '0' ≤ c ∧ c ≤ '9' then some (c.toNat - 48) else none

/-- Split a maximal run of leading decimal digits off the input. -/
def take_digits : List Char → List Nat × List Char
  | [] => ([], [])
  | c :: cs =>
      match digit_val c with
      | some d => (d :: (take_digits cs).1, (take_digits cs).2)
      | none => ([], c :: cs)

/-- Decimal digits to a natural number, most significant first. -/
def digits_to_nat (acc : Nat) : List Nat → Nat
  | [] => acc
  | d :: ds => digits_to_nat (acc * 10 + d) ds

/-- Parse a JSON integral number literal: optional minus sign, then digits
with no redundant leading zero.  A literal continuing with `.`, `e` or `E`
is a float and is rejected (outside the model). -/
def parse_json_number (cs : List Char) : Option (JValue × List Char) :=
  let (neg, cs1) : Bool × List Char :=
    match cs with
    | '-' :: r => (true, r)
    | _ => (false, cs)
  match take_digits cs1 with
  | ([], _) => none
  | (d :: ds, rest) =>
    if d = 0 ∧ ds ≠ [] then none
    else
      match rest with
      | c :: _ =>
          if c = '.' ∨ c = 'e' ∨ c = 'E' then none
          else
            some (.num (if neg then -(digits_to_nat 0 (d :: ds) : Int)
                        else (digits_to_nat 0 (d :: ds) : Int)), rest)
      | [] =>
          some (.num (if neg then -(digits_to_nat 0 (d :: ds) : Int)
                      else (digits_to_nat 0 (d :: ds) : Int)), rest)

/-- Insert into a Python-`dict`-like association list: an existing key keeps
its position and takes the new value; a new key is appended.  This is both
how `dict(pairs)` collapses duplicate JSON object keys (last value wins) and
how `known_tokens[token] = ...` builds the routing table. -/
def dict_insert {α : Type} (fs : List (String × α)) (k : String) (v : α) :
    List (String × α) :=
  if fs.any (fun f => f.1 = k) then
    fs.map (fun f => if f.1 = k then (k, v) else f)
  else fs ++ [(k, v)]

/-- Python `dict` lookup on the association lists built by `dict_insert`. -/
def dict_get {α : Type} (fs : List (String × α)) (k : String) : Option α :=
  (fs.find? (fun f => f.1 = k)).map (fun f => f.2)

mutual
/-- Parse one JSON value after skipping leading whitespace. -/
def parse_json_value : Nat → List Char → Option (JValue × List Char)
  | 0, _ => none
  | fuel + 1, cs0 =>
    match skip_ws cs0 with
    | 'n' :: 'u' :: 'l' :: 'l' :: r => some (.null, r)
    | 't' :: 'r' :: 'u' :: 'e' :: r => some (.bool true, r)
    | 'f' :: 'a' :: 'l' :: 's' :: 'e' :: r => some (.bool false, r)
    | '"' :: r =>
        (parse_json_string_chars r).map (fun p => (.str (String.mk p.1), p.2))
    | '[' :: r =>
        (match skip_ws r with
         | c2 :: r2 =>
             if c2 = ']' then some (.arr [], r2)
             else (parse_json_array fuel [] (c2 :: r2)).map
                    (fun p => (.arr p.1, p.2))
         | [] => none)
    | c :: r =>
        if c = lbrace then
          match skip_ws r with
          | c2 :: r2 =>
              if c2 = rbrace then some (.obj [], r2)
              else (parse_json_object fuel [] (c2 :: r2)).map
                     (fun p => (.obj p.1, p.2))
          | [] => none
        else parse_json_number (c :: r)
    | [] => none

/-- Parse the elements of a non-empty JSON array up to and including `]`,
accumulating in order. -/
def parse_json_array : Nat → List JValue → List Char →
    Option (List JValue × List Char)
  | 0, _, _ => none
  | fuel + 1, acc, cs =>
    match parse_json_value fuel cs with
    | none => none
    | some (v, r) =>
      match skip_ws r with
      | ',' :: r2 => parse_json_array fuel (acc ++ [v]) r2
      | ']' :: r2 => some (acc ++ [v], r2)
      | _ => none

/-- Parse the fields of a non-empty JSON object up to and including the
closing brace, building the field list with `dict` insertion semantics. -/
def parse_json_object : Nat → List (String × JValue) → List Char →
    Option (List (String × JValue) × List Char)
  | 0, _, _ => none
  | fuel + 1, acc, cs =>
    match skip_ws cs with
    | '"' :: r =>
      match parse_json_string_chars r with
      | none => none
      | some (kchars, r1) =>
        match skip_ws r1 with
        | ':' :: r2 =>
          match parse_json_value fuel r2 with
          | none => none
          | some (v, r3) =>
            let acc2 := dict_insert acc (String.mk kchars) v
            match skip_ws r3 with
            | ',' :: r4 => parse_json_object fuel acc2 r4
            | c4 :: r4 => if c4 = rbrace then some (acc2, r4) else none
            | [] => none
        | _ => none
    | _ => none
end

/-- Embedding of `json.loads(s)` (the call made by `await request.json()`):
parse one value, then require only whitespace to remain.  The fuel
`4 * (length + 1)` strictly exceeds the number of parser steps possible on an
input of this length (every step consumes at least one character or closes a
construct), so it never causes a spurious failure. -/
def json_loads (s : String) : Option JValue :=
  match parse_json_value (4 * (s.data.length + 1)) s.data with
  | some (v, rest) => if skip_ws rest = [] then some v else none
  | none => none

/-! ## UTF-8 decoding

Embedding of Python's strict `bytes.decode()` (UTF-8), applied by
`_post_hook` to the raw request payload.  Overlong encodings, surrogate
encodings, out-of-range values and truncated sequences are errors, in which
case the Python call raises `UnicodeDecodeError`; here that is `none`. -/

/-- Whether a byte is a UTF-8 continuation byte (`0x80..0xBF`). -/
def utf8_cont (b : Nat) : Bool :=
  decide (128 ≤ b) && decide (b ≤ 191)

/-- Strict UTF-8 decoding of a byte sequence into characters;
`none` models `UnicodeDecodeError`. -/
def utf8_decode : List Nat → Option (List Char)
  | [] => some []
  | b1 :: rest =>
    if b1 ≤ 127 then
      (utf8_decode rest).map (fun cs => Char.ofNat b1 :: cs)
    else if 194 ≤ b1 ∧ b1 ≤ 223 then
      match rest with
      | b2 :: rest2 =>
        if utf8_cont b2 then
          (utf8_decode rest2).map
            (fun cs => Char.ofNat ((b1 - 192) * 64 + (b2 - 128)) :: cs)
        else none
      | [] => none
    else if 224 ≤ b1 ∧ b1 ≤ 239 then
      match rest with
      | b2 :: b3 :: rest3 =>
        let lo2 := if b1 = 224 then 160 else 128
        let hi2 := if b1 = 237 then 159 else 191
        if lo2 ≤ b2 ∧ b2 ≤ hi2 ∧ utf8_cont b3 then
          (utf8_decode rest3).map
            (fun cs =>
              Char.ofNat ((b1 - 224) * 4096 + (b2 - 128) * 64 + (b3 - 128)) :: cs)
        else none
      | _ => none
    else if 240 ≤ b1 ∧ b1 ≤ 244 then
      match rest with
      | b2 :: b3 :: b4 :: rest4 =>
        let lo2 := if b1 = 240 then 144 else 128
        let hi2 := if b1 = 244 then 143 else 191
        if lo2 ≤ b2 ∧ b2 ≤ hi2 ∧ utf8_cont b3 ∧ utf8_cont b4 then
          (utf8_decode rest4).map
            (fun cs =>
              Char.ofNat ((b1 - 240) * 262144 + (b2 - 128) * 4096 +
                          (b3 - 128) * 64 + (b4 - 128)) :: cs)
        else none
      | _ => none
    else none

/-- `payload.decode()`: the request body bytes as a string, or a raised
`UnicodeDecodeError` (`none`). -/
def payload_decode (payload : List Nat) : Option String :=
  (utf8_decode payload).map String.mk

/-! ## WebhookServer -/

/-- One value of the `KNOWN_TOKENS` routing table:
`\x7b'room': room, 'app_name': app_name\x7d`. -/
structure TokenEntry where
  room : String
  app_name : String
deriving Repr, DecidableEq

/-- Python `str.split(sep)` with an explicit one-character separator:
consecutive separators produce empty fields, and the empty string splits to
`[""]`. -/
def split_on_char (sep : Char) : List Char → List (List Char)
  | [] => [[]]
  | c :: cs =>
      if c = sep then [] :: split_on_char sep cs
      else
        match split_on_char sep cs with
        | g :: gs => (c :: g) :: gs
        | [] => [[c]]

/-- Embedding of `WebhookServer._parse_known_tokens`: split the configured
string on spaces; each piece must split on commas into exactly a
`token,room,app_name` triple (anything else raises `ValueError` at the tuple
unpacking — modelled as `none`); build the table by dict assignment. -/
def parse_known_tokens (rooms : String) : Option (List (String × TokenEntry)) :=
  (split_on_char ' ' rooms.data).foldlM
    (fun acc pairs =>
      match split_on_char ',' pairs with
      | [token, room, app_name] =>
          some (dict_insert acc (String.mk token)
                  ⟨String.mk room, String.mk app_name⟩)
      | _ => none)
    []

/-- `dict(await request.post())`: aiohttp's best-effort form decode of the
body yields a string-keyed dict of form fields, which the serializers treat
as a mapping of strings.  The form-decode result itself is an input of the
model (the HTTP stack is an opaque collaborator). -/
def form_to_jvalue (form : List (String × String)) : JValue :=
  .obj (form.map (fun f => (f.1, .str f.2)))

/-- Model of the external PyYAML `yaml.dump(data, indent=2,
allow_unicode=allow_unicode)` call: a scalar rendering for leaves and a
block-style `key: value` line per field of a top-level mapping.  PyYAML is an
opaque third-party collaborator; no claim in this development depends on the
exact text this function produces, only on the handler sending *some*
serialization of the data. -/
def yaml_scalar : JValue → String
  | .null => "null"
  | .bool true => "true"
  | .bool false => "false"
  | .num n => toString n
  | .str s => s
  | .arr _ => ""
  | .obj _ => ""

/-- See `yaml_scalar`. -/
def yaml_dump (allow_unicode : Bool) (v : JValue) : String :=
  let text :=
    match v with
    | .obj [] => "\x7b\x7d\n"
    | .obj fs => String.join (fs.map (fun f => f.1 ++ ": " ++ yaml_scalar f.2 ++ "\n"))
    | w => yaml_scalar w ++ "\n"
  if allow_unicode then text
  else String.mk (text.data.map (fun c => if c.toNat ≤ 126 then c else '?'))

/-- Embedding of `WebhookServer._format_message`: serialize as JSON with
2-space indentation and `ensure_ascii = not allow_unicode`, or as YAML;
any other format falls through and the Python method returns `None`
(modelled as `none`). -/
def format_message (msg_format : String) (allow_unicode : Bool)
    (data : JValue) : Option String :=
  if msg_format = "json" then some (json_dumps (!allow_unicode) data)
  else if msg_format = "yaml" then some (yaml_dump allow_unicode data)
  else none

/-- The message text computed by `_post_hook` after the 404/415 guards: for
`raw` the decoded body is passed through unchanged; otherwise the body is
parsed as JSON, falling back on failure to the dict captured by the attempted
form decode, and the result is serialized by `_format_message`.  (The `none`
branch of `_format_message` is unreachable here because the 415 guard already
rejected every format other than raw/json/yaml; in Python the variable would
become `None`.) -/
def hook_message (message_format : String) (allow_unicode : Bool)
    (rawData : String) (form : List (String × String)) : String :=
  if message_format ≠ "raw" then
    let data : JValue :=
      match json_loads rawData with
      | some v => v
      | none => form_to_jvalue form
    match format_message message_format allow_unicode data with
    | some s => s
    | none => "None"
  else rawData

/-- One `E2EEClient.send_message(message, room, sender)` call issued by the
handler. -/
structure SendCall where
  message : String
  room : String
  sender : String
deriving Repr, DecidableEq

/-- The process configuration read by `_post_hook`: `MESSAGE_FORMAT`,
`ALLOW_UNICODE == 'True'`, and the routing table parsed from
`KNOWN_TOKENS`. -/
structure HookConfig where
  message_format : String
  allow_unicode : Bool
  known_tokens : List (String × TokenEntry)

/-- Observable outcome of one `_post_hook` invocation: an HTTP response
(status, JSON body) or an exception escaping the handler (aiohttp then
produces a 500-class server error), together with the `send_message` calls
issued before that point. -/
inductive HttpOutcome where
  | response (status : Nat) (body : JValue) (sends : List SendCall)
  | uncaught (sends : List SendCall)
deriving Repr

/-- Embedding of `WebhookServer._post_hook`, in source order: read and decode
the payload (an invalid-UTF-8 body raises out of the handler before any
check); reject an unknown token with 404 `\x7b'error': 'Token mismatch'\x7d`;
reject a configured format outside raw/json/yaml with 415; otherwise compute
the message text (`hook_message`) and issue the send with the `room` and
`app_name` of the token's table entry.  `send_ok` says whether the awaited
`send_message` call succeeds; if it raises, the exception escapes the handler
after the send was issued.  On success the handler returns 200
`\x7b'success': True\x7d`. -/
def post_hook (cfg : HookConfig) (token : String) (payload : List Nat)
    (form : List (String × String)) (send_ok : Bool) : HttpOutcome :=
  match payload_decode payload with
  | none => .uncaught []
  | some rawData =>
    match dict_get cfg.known_tokens token with
    | none => .response 404 (.obj [("error", .str "Token mismatch")]) []
    | some entry =>
      if cfg.message_format = "raw" ∨ cfg.message_format = "json" ∨
          cfg.message_format = "yaml" then
        let data := hook_message cfg.message_format cfg.allow_unicode rawData form
        if send_ok then
          .response 200 (.obj [("success", .bool true)])
            [⟨data, entry.room, entry.app_name⟩]
        else .uncaught [⟨data, entry.room, entry.app_name⟩]
      else
        .response 415
          (.obj [("error", .str "Gateway configured with unknown message format")]) []

/-! ## E2EEClient: one-time greeting -/

/-- The mutable client state consulted by `_sync_callback`:
`self.greeting_sent`, initialised to `False` in `__init__`. -/
structure GreetingState where
  greeting_sent : Bool
deriving Repr, DecidableEq

/-- The observable actions of one `_sync_callback` invocation, in program
order: the flag assignment `self.greeting_sent = True` and the awaited
greeting `send_message` to the admin room. -/
inductive GreetingEvent where
  | set_flag
  | send_greeting
deriving Repr, DecidableEq, BEq

/-- Embedding of `E2EEClient._sync_callback` restricted to its state-visible
behaviour: when the flag is unset, set it (before the send, as in the source)
and then send the greeting; otherwise do nothing. -/
def sync_callback (s : GreetingState) : GreetingState × List GreetingEvent :=
  if s.greeting_sent then (s, [])
  else (⟨true⟩, [.set_flag, .send_greeting])

/-- `n` successive sync-completion callback invocations, with the
concatenated event trace. -/
def run_sync_callbacks : Nat → GreetingState → GreetingState × List GreetingEvent
  | 0, s => (s, [])
  | n + 1, s =>
      let step := sync_callback s
      let rest := run_sync_callbacks n step.1
      (rest.1, step.2 ++ rest.2)

/-! ## E2EEClient: credential and login lifecycle -/

/-- The JSON object written to `credentials.json` by
`_write_details_to_disk`: `\x7bhomeserver, user_id, device_id,
access_token\x7d`. -/
structure SessionCredentials where
  homeserver : String
  user_id : String
  device_id : String
  access_token : String
deriving Repr, DecidableEq

/-- The credential file under the store path:
`none` models an absent `credentials.json` (first run). -/
structure CredentialStore where
  cred_file : Option SessionCredentials
deriving Repr, DecidableEq

/-- The environment configuration read by `_login_first_time`:
`MATRIX_SERVER`, `MATRIX_USERID`, `MATRIX_PASSWORD`, `MATRIX_DEVICE`. -/
structure MatrixEnv where
  server : String
  userid : String
  password : String
  device : String

/-- What the homeserver answers to an interactive password login: a
`LoginResponse` carrying the session identity, or an error response. -/
inductive AuthResult where
  | login_ok (user_id device_id access_token : String)
  | login_err (msg : String)

/-- Result of `E2EEClient.login()`: the (possibly updated) credential file,
whether an interactive password authentication was performed, and the session
identity of the active client; or `sys.exit(1)` on a failed first-time
login. -/
inductive LoginResult where
  | logged_in (fs : CredentialStore) (interactive : Bool)
      (active : SessionCredentials)
  | process_exit (code : Nat)
deriving Repr, DecidableEq

/-- Embedding of `E2EEClient.login()`.  If `credentials.json` exists, no
interactive authentication happens and `_login_with_stored_config` restores
the stored identity.  Otherwise `_login_first_time` performs the interactive
password login: on failure it calls `sys.exit(1)`; on success it writes
`\x7bhomeserver, user_id, device_id, access_token\x7d` to the file, and the
subsequent `_login_with_stored_config` call returns early because
`self.client` is already set, leaving the freshly authenticated session
active. -/
def client_login (env : MatrixEnv) (fs : CredentialStore)
    (auth : AuthResult) : LoginResult :=
  match fs.cred_file with
  | some stored => .logged_in fs false stored
  | none =>
    match auth with
    | .login_err _ => .process_exit 1
    | .login_ok uid did tok =>
        let creds : SessionCredentials := ⟨env.server, uid, did, tok⟩
        .logged_in ⟨some creds⟩ true creds

/-! ## main.py: supervisor and process exit -/

/-- `asyncio.gather(*processes, return_exceptions=True)`: every task outcome,
exception or value, is collected into the result list; nothing is re-raised
to the awaiting coroutine. -/
def gather_return_exceptions (results : List (Except String Unit)) :
    Except String (List (Except String Unit)) :=
  .ok results

/-- The body of `main()` after both loop tasks have produced an outcome:
it only awaits the gather call and never inspects the collected results, so
it completes normally whenever gather does. -/
def main_outcome (sync_result webhook_result : Except String Unit) :
    Except String Unit :=
  match gather_return_exceptions [sync_result, webhook_result] with
  | .ok _ => .ok ()
  | .error e => .error e

/-- The module-level entry: `run_until_complete(main())` inside
`try/except`.  An `Exception` escaping `main()` triggers `sys.exit(1)`;
normal completion falls off the end of the script with exit status 0. -/
def process_exit_code (sync_result webhook_result : Except String Unit) : Nat :=
  match main_outcome sync_result webhook_result with
  | .ok _ => 0
  | .error _ => 1

/-! ## Shared concrete instances for the witness theorems -/

/-- The ASCII bytes of a string, for feeding concrete request bodies to
`post_hook`. -/
def ascii_bytes (s : String) : List Nat := s.data.map Char.toNat

/-- A concrete one-entry routing table: exactly the parse of the
configuration string `"tok1,!aaa:example.org,App1"`. -/
def demo_tokens : List (String × TokenEntry) :=
  [("tok1", ⟨"!aaa:example.org", "App1"⟩)]

/-! ## Sanity checks of the embedding on concrete inputs -/

example : json_dumps false (.obj [("a", .num 1)]) = "\x7b\n  \"a\": 1\n\x7d" := rfl

example : json_dumps true (.str "\u00e9") = "\"\\u00e9\"" := rfl

example : json_loads "\x7b\"a\": 1\x7d" = some (.obj [("a", .num 1)]) := rfl

example : json_loads " [1, 2, \"x\"] " = some (.arr [.num 1, .num 2, .str "x"]) := rfl

example : json_loads "hello" = none := rfl

example : json_loads "" = none := rfl

example : payload_decode [104, 105] = some "hi" := rfl

example : payload_decode [195, 169] = some "é" := rfl

example : payload_decode [255] = none := rfl

example : payload_decode [104, 195] = none := rfl

example :
    parse_known_tokens "tok1,!aaa:example.org,App1 tok2,!bbb:example.org,App2" =
      some [("tok1", ⟨"!aaa:example.org", "App1"⟩),
            ("tok2", ⟨"!bbb:example.org", "App2"⟩)] := rfl

example : parse_known_tokens "tok1,!aaa:example.org" = none := rfl

example : (run_sync_callbacks 3 ⟨false⟩).2 = [.set_flag, .send_greeting] := rfl

/-! ## Claims -/

/-- C1: for every POST `/post/(token)` whose token is present in the routing
table, with the configured message format one of raw/json/yaml and a
succeeding send call, the handler returns HTTP 200 `\x7bsuccess: true\x7d`
and the room id and sender label passed to `send_message` are exactly the
`room` and `app_name` of that token's entry in the parsed token table. -/
theorem C1_known_token_success (cfg : HookConfig) (token : String)
    (payload : List Nat) (form : List (String × String)) (src : String)
    (entry : TokenEntry) (rawData : String)
    (htable : parse_known_tokens src = some cfg.known_tokens)
    (hlook : dict_get cfg.known_tokens token = some entry)
    (hfmt : cfg.message_format = "raw" ∨ cfg.message_format = "json" ∨
      cfg.message_format = "yaml")
    (hdec : payload_decode payload = some rawData) :
    post_hook cfg token payload form true =
      .response 200 (.obj [("success", .bool true)])
        [⟨hook_message cfg.message_format cfg.allow_unicode rawData form,
          entry.room, entry.app_name⟩] := by
  simp only [post_hook, hdec, hlook, if_pos hfmt, if_true]

/-- Witness for C1 at a concrete configuration, token and body. -/
theorem C1_known_token_success_witness :
    parse_known_tokens "tok1,!aaa:example.org,App1" = some demo_tokens ∧
    dict_get demo_tokens "tok1" = some ⟨"!aaa:example.org", "App1"⟩ ∧
    post_hook ⟨"raw", false, demo_tokens⟩ "tok1" (ascii_bytes "hi") [] true =
      .response 200 (.obj [("success", .bool true)])
        [⟨"hi", "!aaa:example.org", "App1"⟩] := by
  refine ⟨by decide, by decide, ?_⟩
  have h := C1_known_token_success ⟨"raw", false, demo_tokens⟩ "tok1"
    (ascii_bytes "hi") [] "tok1,!aaa:example.org,App1"
    ⟨"!aaa:example.org", "App1"⟩ "hi"
    (by decide) (by decide) (Or.inl rfl) (by decide)
  exact h

/-- C2: for every POST `/post/(token)` whose token is not a key of the
routing table (and whose body decodes as UTF-8, so that the decode on line 55
does not raise first), the handler returns HTTP 404
`\x7berror: "Token mismatch"\x7d` and no send call occurs. -/
theorem C2_unknown_token_404 (cfg : HookConfig) (token : String)
    (payload : List Nat) (form : List (String × String)) (send_ok : Bool)
    (rawData : String)
    (hlook : dict_get cfg.known_tokens token = none)
    (hdec : payload_decode payload = some rawData) :
    post_hook cfg token payload form send_ok =
      .response 404 (.obj [("error", .str "Token mismatch")]) [] := by
  simp only [post_hook, hdec, hlook]

/-- Witness for C2 at a concrete configuration and unknown token. -/
theorem C2_unknown_token_404_witness :
    dict_get demo_tokens "nope" = none ∧
    post_hook ⟨"raw", false, demo_tokens⟩ "nope" (ascii_bytes "hi") [] true =
      .response 404 (.obj [("error", .str "Token mismatch")]) [] :=
  ⟨by decide,
   C2_unknown_token_404 ⟨"raw", false, demo_tokens⟩ "nope"
     (ascii_bytes "hi") [] true "hi" (by decide) (by decide)⟩

/-- C3, counterexample: the claim says the unknown-token 404 is produced
without reading or decoding the body, so any two bodies with the same unknown
token give the identical 404.  In the source `payload.decode()` runs before
the token check, so a body that is not valid UTF-8 raises instead of
returning 404: the two outcomes below differ. -/
theorem C3_unknown_token_body_counterexample :
    post_hook ⟨"raw", false, demo_tokens⟩ "nope" [255] [] true ≠
      post_hook ⟨"raw", false, demo_tokens⟩ "nope" (ascii_bytes "h") [] true := by
  intro h
  have h1 : post_hook ⟨"raw", false, demo_tokens⟩ "nope" [255] [] true =
      .uncaught [] := rfl
  have h2 : post_hook ⟨"raw", false, demo_tokens⟩ "nope" (ascii_bytes "h") []
      true = .response 404 (.obj [("error", .str "Token mismatch")]) [] := rfl
  rw [h1, h2] at h
  exact HttpOutcome.noConfusion h

/-- C3, amended: the handler reads and decodes the body before validating the
token; for every two request bodies that both decode as UTF-8 (with the same
unknown token) the outcome is the identical 404 response, independent of the
bodies' contents, the form-decode results and the send oracle. -/
theorem C3_unknown_token_body_amended (cfg : HookConfig) (token : String)
    (p1 p2 : List Nat) (f1 f2 : List (String × String)) (s1 s2 : Bool)
    (r1 r2 : String)
    (hlook : dict_get cfg.known_tokens token = none)
    (h1 : payload_decode p1 = some r1) (h2 : payload_decode p2 = some r2) :
    post_hook cfg token p1 f1 s1 =
      .response 404 (.obj [("error", .str "Token mismatch")]) [] ∧
    post_hook cfg token p1 f1 s1 = post_hook cfg token p2 f2 s2 := by
  have e1 : post_hook cfg token p1 f1 s1 =
      .response 404 (.obj [("error", .str "Token mismatch")]) [] := by
    simp only [post_hook, h1, hlook]
  have e2 : post_hook cfg token p2 f2 s2 =
      .response 404 (.obj [("error", .str "Token mismatch")]) [] := by
    simp only [post_hook, h2, hlook]
  exact ⟨e1, e1.trans e2.symm⟩

/-- Witness for the amended C3 at two concrete decodable bodies. -/
theorem C3_unknown_token_body_amended_witness :
    dict_get demo_tokens "nope" = none ∧
    (post_hook ⟨"raw", false, demo_tokens⟩ "nope" (ascii_bytes "abc") [] true =
        .response 404 (.obj [("error", .str "Token mismatch")]) [] ∧
      post_hook ⟨"raw", false, demo_tokens⟩ "nope" (ascii_bytes "abc") [] true =
        post_hook ⟨"raw", false, demo_tokens⟩ "nope" (ascii_bytes "xyzw")
          [("k", "v")] false) :=
  ⟨by decide,
   C3_unknown_token_body_amended ⟨"raw", false, demo_tokens⟩ "nope"
     (ascii_bytes "abc") (ascii_bytes "xyzw") [] [("k", "v")] true false
     "abc" "xyzw" (by decide) (by decide) (by decide)⟩

/-- C4: for every POST `/post/(token)` with a known token (and a UTF-8 body),
if the globally configured message format is not one of raw/json/yaml the
handler returns HTTP 415 and the chat send path is not invoked. -/
theorem C4_unknown_format_415 (cfg : HookConfig) (token : String)
    (payload : List Nat) (form : List (String × String)) (send_ok : Bool)
    (entry : TokenEntry) (rawData : String)
    (hlook : dict_get cfg.known_tokens token = some entry)
    (hfmt : ¬(cfg.message_format = "raw" ∨ cfg.message_format = "json" ∨
      cfg.message_format = "yaml"))
    (hdec : payload_decode payload = some rawData) :
    post_hook cfg token payload form send_ok =
      .response 415
        (.obj [("error", .str "Gateway configured with unknown message format")])
        [] := by
  simp only [post_hook, hdec, hlook, if_neg hfmt]

/-- Witness for C4 with the format misconfigured as `xml`. -/
theorem C4_unknown_format_415_witness :
    ¬("xml" = "raw" ∨ "xml" = "json" ∨ "xml" = "yaml") ∧
    post_hook ⟨"xml", false, demo_tokens⟩ "tok1" (ascii_bytes "hi") [] true =
      .response 415
        (.obj [("error", .str "Gateway configured with unknown message format")])
        [] :=
  ⟨by decide,
   C4_unknown_format_415 ⟨"xml", false, demo_tokens⟩ "tok1" (ascii_bytes "hi")
     [] true ⟨"!aaa:example.org", "App1"⟩ "hi"
     (by decide) (by decide) (by decide)⟩

/-- C5: for every POST `/post/(token)` with a known token under configured
mode json or yaml, if the body fails to parse as JSON the handler does not
return a 5xx response: it falls back to the dict captured by the attempted
form decode, formats that fallback with `_format_message`, still performs the
send (with the token's room and sender label) and returns HTTP 200. -/
theorem C5_json_parse_failure_degrades (cfg : HookConfig) (token : String)
    (payload : List Nat) (form : List (String × String)) (entry : TokenEntry)
    (rawData : String)
    (hlook : dict_get cfg.known_tokens token = some entry)
    (hfmt : cfg.message_format = "json" ∨ cfg.message_format = "yaml")
    (hdec : payload_decode payload = some rawData)
    (hparse : json_loads rawData = none) :
    post_hook cfg token payload form true =
      .response 200 (.obj [("success", .bool true)])
        [⟨(format_message cfg.message_format cfg.allow_unicode
             (form_to_jvalue form)).getD "None",
          entry.room, entry.app_name⟩] := by
  rcases hfmt with h | h <;>
    simp +decide only [post_hook, hdec, hlook, h, hook_message, hparse,
      format_message, if_true, Option.getD] <;> rfl

/-- Witness for C5: a known token, json mode, a body that is not JSON and an
empty form decode; the handler still answers 200 and sends the serialized
empty mapping. -/
theorem C5_json_parse_failure_degrades_witness :
    json_loads "not json!!" = none ∧
    post_hook ⟨"json", false, demo_tokens⟩ "tok1" (ascii_bytes "not json!!")
        [] true =
      .response 200 (.obj [("success", .bool true)])
        [⟨"\x7b\x7d", "!aaa:example.org", "App1"⟩] := by
  refine ⟨rfl, ?_⟩
  have h := C5_json_parse_failure_degrades ⟨"json", false, demo_tokens⟩ "tok1"
    (ascii_bytes "not json!!") [] ⟨"!aaa:example.org", "App1"⟩ "not json!!"
    (by decide) (Or.inl rfl) rfl rfl
  exact h

/-- C6: under configured mode json, formatting the parsed body
`\x7b"a": 1\x7d` produces exactly the 2-space-indented JSON text, that text
parses back to the same key/value mapping, and with `allow_unicode = false`
a non-ASCII character in a value is `\uXXXX`-escaped in the output. -/
theorem C6_json_mode_roundtrip :
    format_message "json" false (.obj [("a", .num 1)]) =
      some "\x7b\n  \"a\": 1\n\x7d" ∧
    json_loads "\x7b\n  \"a\": 1\n\x7d" = some (.obj [("a", .num 1)]) ∧
    format_message "json" false (.obj [("a", .str "café")]) =
      some "\x7b\n  \"a\": \"caf\\u00e9\"\n\x7d" :=
  ⟨rfl, rfl, rfl⟩

/-- Once `greeting_sent` is `true`, further sync callbacks change nothing and
emit nothing. -/
theorem run_sync_callbacks_flag_set (n : Nat) :
    run_sync_callbacks n ⟨true⟩ = (⟨true⟩, []) := by
  induction n with
  | zero => rfl
  | succ n ih => simp [run_sync_callbacks, sync_callback, ih]

/-- C7: across the whole process lifetime, for every number of
sync-completion callback invocations starting from the initial state, the
greeting is sent at most once, and whenever it is sent the trace is exactly
flag-assignment followed by the send — the flag is set to true before the
send is initiated. -/
theorem C7_greeting_at_most_once (n : Nat) :
    ((run_sync_callbacks n ⟨false⟩).2.count .send_greeting ≤ 1) ∧
    ((run_sync_callbacks n ⟨false⟩).2 = [] ∨
      (run_sync_callbacks n ⟨false⟩).2 = [.set_flag, .send_greeting]) := by
  cases n with
  | zero => exact ⟨by decide, Or.inl rfl⟩
  | succ n =>
      have h : run_sync_callbacks (n + 1) ⟨false⟩ =
          (⟨true⟩, [.set_flag, .send_greeting]) := by
        simp [run_sync_callbacks, sync_callback, run_sync_callbacks_flag_set]
      rw [h]
      exact ⟨by decide, Or.inr rfl⟩

/-- C8: evaluation of the supervisor at the failing inputs.  When either
long-running loop fails, `asyncio.gather(..., return_exceptions=True)`
collects the exception instead of re-raising it, `main()` completes normally,
and the process exits with status 0 — not the non-zero exit the claim (and
the spec's §5/§7 and the module's own `except Exception: sys.exit(1)`
handler) require. -/
theorem C8_loop_failure_exits_zero :
    process_exit_code (.error "sync loop failure") (.ok ()) = 0 ∧
    process_exit_code (.ok ()) (.error "webhook listener failure") = 0 :=
  ⟨rfl, rfl⟩

/-- C9: on a first run with no credential file, a successful interactive
authentication writes the credential file with the homeserver, user id,
device id and access token; on a subsequent start with that store the file
exists, login restores exactly the stored session, and no interactive
password authentication is attempted (whatever the auth oracle would
answer). -/
theorem C9_credential_lifecycle (env : MatrixEnv) (uid did tok : String)
    (auth2 : AuthResult) :
    client_login env ⟨none⟩ (.login_ok uid did tok) =
      .logged_in ⟨some ⟨env.server, uid, did, tok⟩⟩ true
        ⟨env.server, uid, did, tok⟩ ∧
    client_login env ⟨some ⟨env.server, uid, did, tok⟩⟩ auth2 =
      .logged_in ⟨some ⟨env.server, uid, did, tok⟩⟩ false
        ⟨env.server, uid, did, tok⟩ :=
  ⟨rfl, rfl⟩

/-- C10: for every POST `/post/(token)` whose body bytes are not valid UTF-8,
the handler raises at `payload.decode()` before the token is validated: the
request fails as an uncaught server error with no send call, no 404 and no
200 — for known and unknown tokens alike. -/
theorem C10_invalid_utf8_uncaught (cfg : HookConfig) (token : String)
    (payload : List Nat) (form : List (String × String)) (send_ok : Bool)
    (hdec : payload_decode payload = none) :
    post_hook cfg token payload form send_ok = .uncaught [] := by
  simp only [post_hook, hdec]

/-- Witness for C10: an `0xFF` body with a known token (the unknown-token
case is the first half of the C3 counterexample). -/
theorem C10_invalid_utf8_uncaught_witness :
    payload_decode [255] = none ∧
    post_hook ⟨"raw", false, demo_tokens⟩ "tok1" [255] [] true = .uncaught [] :=
  ⟨rfl, C10_invalid_utf8_uncaught ⟨"raw", false, demo_tokens⟩ "tok1" [255]
    [] true rfl⟩
